import Mathlib

/-!
Verification of the jellyfin target adapter (`targets/jellyfin/jellyfin.go`).

The adapter receives a folder-changed event, rewrites the folder path,
resolves the owning library by first string-prefix match over a cached
library snapshot, and then either performs a precise per-item refresh
(GetViewID → FindItemIDByPath → RefreshItem) or falls back to a
whole-library scan.

The remote API client is external; it is embedded as a record of
`Except`-valued response oracles.  `target.Scan` is embedded as a pure
function returning the (unchanged) receiver state, the error result of
the call (`none` = Go `nil`), and the ordered trace of remote API calls
it issued.
-/

namespace Jellyfin

/-- Go `strings.HasPrefix(s, p)`: `p` is a string prefix of `s`.
Embedded structurally over the character list of the string so it is
kernel-computable (the inputs involved are ASCII paths, where byte and
character granularity coincide). -/
def hasPrefix (s p : String) : Bool :=
  p.data.isPrefixOf s.data

/-- Go `strings.TrimSpace(s)`: drop leading and trailing whitespace.
Embedded structurally over the character list of the string. -/
def trimSpace (s : String) : String :=
  ⟨((s.data.dropWhile Char.isWhitespace).reverse.dropWhile
      Char.isWhitespace).reverse⟩

/-- Library entry `{Name, Path}` as held in the target's cached snapshot
(the `library` struct consumed by `getScanLibrary`). -/
structure library where
  Name : String
  Path : String
deriving DecidableEq, Repr

/-- The target's configuration (`Config` struct in jellyfin.go); fields
not read by `Scan` (URL, Token, Rewrite, Verbosity) are kept abstractly
where relevant to state identity, with URL and Token as plain strings. -/
structure Config where
  URL : String
  Token : String
  UserID : String
  Library : String
  PreciseRefresh : Bool
deriving DecidableEq, Repr

/-- One remote API call, recorded with its arguments.  `librariesCall`
and `availableCall` correspond to `api.Libraries()` and
`api.Available()`, which `Scan` never issues. -/
inductive ApiCall where
  | librariesCall : ApiCall
  | availableCall : ApiCall
  | getViewID (userID libraryName : String) : ApiCall
  | findItemIDByPath (userID viewID path : String) : ApiCall
  | refreshItem (itemID : String) : ApiCall
  | scanCall (path : String) : ApiCall
deriving DecidableEq, Repr

/-- The remote API client, embedded as response oracles: each operation
either fails with an error message (`Except.error`) or returns its
result, mirroring the Go `apiClient`'s fallible methods used by `Scan`. -/
structure apiClient where
  GetViewID : String → String → Except String String
  FindItemIDByPath : String → String → String → Except String String
  RefreshItem : String → Except String Unit
  Scan : String → Except String Unit

/-- The adapter instance (`target` struct): configuration, cached library
snapshot, path rewriter and API-client handle, all set at construction. -/
structure target where
  cfg : Config
  libraries : List library
  rewrite : String → String
  api : apiClient

/-- The loop body of `getScanLibrary`: iterate the library list in order
and return the first entry whose `Path` is a string prefix of `folder`
(Go `strings.HasPrefix(folder, l.Path)`); `none` models the
`failed determining library` error. -/
def getScanLibraryList : List library → String → Option library
  | [], _ => none
  | l :: rest, folder =>
      if hasPrefix folder l.Path then some l else getScanLibraryList rest folder

/-- `t.getScanLibrary folder`: resolve the owning library from the cached
snapshot `t.libraries`. -/
def target.getScanLibrary (t : target) (folder : String) : Option library :=
  getScanLibraryList t.libraries folder

/-- The effective library name used for the view lookup:
`libraryName := t.cfg.Library; if strings.TrimSpace(libraryName) == "" {
libraryName = lib.Name }`. -/
def effectiveLibraryName (cfg : Config) (lib : library) : String :=
  if trimSpace cfg.Library = "" then lib.Name else cfg.Library

/-- The tail of `Scan`: issue the whole-library `api.Scan(scanFolder)`
request and return its error (if any), appending the call to the trace
accumulated so far.  The receiver `t` is returned unchanged (Go value
receiver, no field assignment). -/
def fullScanFrom (t : target) (scanFolder : String) (prev : List ApiCall) :
    target × Option String × List ApiCall :=
  match t.api.Scan scanFolder with
  | .error e => (t, some e, prev ++ [ApiCall.scanCall scanFolder])
  | .ok _ => (t, none, prev ++ [ApiCall.scanCall scanFolder])

/-- `t.Scan scan`: the full orchestration of `func (t target) Scan`.
Returns the receiver state after the call, the Go error result
(`none` = `nil`), and the ordered trace of remote API calls issued. -/
def target.Scan (t : target) (scanInput : String) :
    target × Option String × List ApiCall :=
  let scanFolder := t.rewrite scanInput
  match t.getScanLibrary scanFolder with
  | none => (t, none, [])
  | some lib =>
    if t.cfg.PreciseRefresh then
      let libraryName := effectiveLibraryName t.cfg lib
      match t.api.GetViewID t.cfg.UserID libraryName with
      | .error _ =>
          fullScanFrom t scanFolder
            [ApiCall.getViewID t.cfg.UserID libraryName]
      | .ok viewID =>
        match t.api.FindItemIDByPath t.cfg.UserID viewID scanFolder with
        | .error _ =>
            fullScanFrom t scanFolder
              [ApiCall.getViewID t.cfg.UserID libraryName,
               ApiCall.findItemIDByPath t.cfg.UserID viewID scanFolder]
        | .ok itemID =>
          if trimSpace itemID = "" then
            fullScanFrom t scanFolder
              [ApiCall.getViewID t.cfg.UserID libraryName,
               ApiCall.findItemIDByPath t.cfg.UserID viewID scanFolder]
          else
            match t.api.RefreshItem itemID with
            | .error _ =>
                fullScanFrom t scanFolder
                  [ApiCall.getViewID t.cfg.UserID libraryName,
                   ApiCall.findItemIDByPath t.cfg.UserID viewID scanFolder,
                   ApiCall.refreshItem itemID]
            | .ok _ =>
                (t, none,
                 [ApiCall.getViewID t.cfg.UserID libraryName,
                  ApiCall.findItemIDByPath t.cfg.UserID viewID scanFolder,
                  ApiCall.refreshItem itemID])
    else
      fullScanFrom t scanFolder []

/-- The error result of a `Scan` invocation (`none` = Go `nil`). -/
def target.scanResult (t : target) (f : String) : Option String :=
  (t.Scan f).2.1

/-- The trace of remote API calls issued by a `Scan` invocation. -/
def target.scanCalls (t : target) (f : String) : List ApiCall :=
  (t.Scan f).2.2

/-! ## Sample fixtures used by concrete witnesses -/

/-- A remote API client whose calls all succeed: `GetViewID` yields
`"view1"`, `FindItemIDByPath` yields `"42"`. -/
def okApi : apiClient where
  GetViewID := fun _ _ => .ok "view1"
  FindItemIDByPath := fun _ _ _ => .ok "42"
  RefreshItem := fun _ => .ok ()
  Scan := fun _ => .ok ()

/-- Like `okApi`, but the item lookup returns a whitespace-only
identifier. -/
def emptyItemApi : apiClient where
  GetViewID := fun _ _ => .ok "view1"
  FindItemIDByPath := fun _ _ _ => .ok "  "
  RefreshItem := fun _ => .ok ()
  Scan := fun _ => .ok ()

/-- Like `okApi`, but the per-item refresh fails. -/
def refreshFailApi : apiClient where
  GetViewID := fun _ _ => .ok "view1"
  FindItemIDByPath := fun _ _ _ => .ok "42"
  RefreshItem := fun _ => .error "boom"
  Scan := fun _ => .ok ()

/-- The spec's example library snapshot. -/
def sampleLibs : List library :=
  [⟨"Movies", "/data/movies"⟩, ⟨"TV", "/data/tv"⟩]

/-- A sample adapter over `sampleLibs` with identity rewriter. -/
def sampleTarget (precise : Bool) (libOverride : String) (a : apiClient) :
    target where
  cfg := { URL := "http://jf", Token := "tok", UserID := "user",
           Library := libOverride, PreciseRefresh := precise }
  libraries := sampleLibs
  rewrite := id
  api := a

/-! ## Helper lemmas -/

/-- The fallback scan never alters the receiver state. -/
theorem fullScanFrom_fst (t : target) (p : String) (prev : List ApiCall) :
    (fullScanFrom t p prev).1 = t := by
  unfold fullScanFrom
  cases t.api.Scan p <;> rfl

/-- The fallback scan's error result is exactly `api.Scan`'s error. -/
theorem fullScanFrom_result (t : target) (p : String) (prev : List ApiCall)
    (e : String) :
    (fullScanFrom t p prev).2.1 = some e ↔ t.api.Scan p = .error e := by
  unfold fullScanFrom
  cases h : t.api.Scan p <;> simp

/-- The fallback scan appends exactly one `scanCall` to the trace. -/
theorem fullScanFrom_calls (t : target) (p : String) (prev : List ApiCall) :
    (fullScanFrom t p prev).2.2 = prev ++ [ApiCall.scanCall p] := by
  unfold fullScanFrom
  cases t.api.Scan p <;> rfl

/-- The resolver loop is `List.find?` over the prefix test. -/
theorem getScanLibraryList_eq_find? (libs : List library) (folder : String) :
    getScanLibraryList libs folder =
      libs.find? (fun l => hasPrefix folder l.Path) := by
  induction libs with
  | nil => rfl
  | cons l rest ih =>
      by_cases h : hasPrefix folder l.Path
      · simp [getScanLibraryList, h]
      · simp [getScanLibraryList, h, ih]

/-! ## Claims -/

/-- C2: the library resolver returns the first library, in the list's
original (directory-supplied) order, whose `Path` is a string prefix of
the folder, and returns the `NoMatchingLibrary` failure (`none`) exactly
when no library's root is a prefix; when several roots are prefixes the
earliest in the supplied order wins (first-match, not
longest-prefix-match). -/
theorem C2_getScanLibrary_first_match (libs : List library) (folder : String) :
    (getScanLibraryList libs folder = none ↔
      ∀ l ∈ libs, hasPrefix folder l.Path = false) ∧
    ∀ pre l post, libs = pre ++ l :: post →
      (∀ l' ∈ pre, hasPrefix folder l'.Path = false) →
      hasPrefix folder l.Path = true →
      getScanLibraryList libs folder = some l := by
  constructor
  · rw [getScanLibraryList_eq_find?, List.find?_eq_none]
    simp
  · intro pre l post hsplit hpre hl
    subst hsplit
    rw [getScanLibraryList_eq_find?, List.find?_append]
    have hpre' : (pre.find? fun l' => hasPrefix folder l'.Path) = none := by
      rw [List.find?_eq_none]
      intro x hx
      simp [hpre x hx]
    rw [hpre', Option.none_or, List.find?_cons_of_pos _ (by simp [hl])]

/-- Witness for C2: with roots `/data/movies` then `/data/tv` (the first
not matching), path `/data/tv/x` resolves to the `TV` library. -/
theorem C2_witness :
    getScanLibraryList sampleLibs "/data/tv/x" = some ⟨"TV", "/data/tv"⟩ :=
  (C2_getScanLibrary_first_match sampleLibs "/data/tv/x").2
    [⟨"Movies", "/data/movies"⟩] ⟨"TV", "/data/tv"⟩ [] rfl
    (by decide) (by decide)

/-- C7: when the rewritten path matches no library root, `Scan` returns
success (`nil`) and issues no remote API calls at all. -/
theorem C7_no_library_success_no_calls (t : target) (f : String)
    (h : t.getScanLibrary (t.rewrite f) = none) :
    t.scanResult f = none ∧ t.scanCalls f = [] := by
  simp [target.scanResult, target.scanCalls, target.Scan, h]

/-- Witness for C7: folder `/data/music/x` matches no sample root. -/
theorem C7_witness :
    (sampleTarget false "" okApi).scanResult "/data/music/x" = none ∧
    (sampleTarget false "" okApi).scanCalls "/data/music/x" = [] :=
  C7_no_library_success_no_calls (sampleTarget false "" okApi)
    "/data/music/x" (by decide)

/-- C3: when the path resolves to a library and precise refresh is
disabled, the trace is exactly one `api.Scan` on the rewritten path —
no `GetViewID`, `FindItemIDByPath` or `RefreshItem`. -/
theorem C3_no_precise_single_scan (t : target) (f : String) (lib : library)
    (hlib : t.getScanLibrary (t.rewrite f) = some lib)
    (hp : t.cfg.PreciseRefresh = false) :
    t.scanCalls f = [ApiCall.scanCall (t.rewrite f)] := by
  simp [target.scanCalls, target.Scan, hlib, hp, fullScanFrom_calls]

/-- Witness for C3: precise refresh disabled, folder
`/data/movies/Inception`. -/
theorem C3_witness :
    (sampleTarget false "" okApi).scanCalls "/data/movies/Inception" =
      [ApiCall.scanCall "/data/movies/Inception"] :=
  C3_no_precise_single_scan (sampleTarget false "" okApi)
    "/data/movies/Inception" ⟨"Movies", "/data/movies"⟩ (by decide) rfl

/-- C4: with precise refresh enabled, if the view lookup succeeds, the
item lookup succeeds with a non-whitespace identifier and the item
refresh succeeds, then `Scan` returns success and the fallback
`api.Scan` is never invoked (no `scanCall` in the trace). -/
theorem C4_precise_success_no_fullscan (t : target) (f : String)
    (lib : library) (viewID itemID : String)
    (hlib : t.getScanLibrary (t.rewrite f) = some lib)
    (hp : t.cfg.PreciseRefresh = true)
    (hv : t.api.GetViewID t.cfg.UserID (effectiveLibraryName t.cfg lib) =
      .ok viewID)
    (hf : t.api.FindItemIDByPath t.cfg.UserID viewID (t.rewrite f) =
      .ok itemID)
    (hne : ¬ trimSpace itemID = "")
    (hr : t.api.RefreshItem itemID = .ok ()) :
    t.scanResult f = none ∧ ∀ p, ApiCall.scanCall p ∉ t.scanCalls f := by
  simp [target.scanResult, target.scanCalls, target.Scan, hlib, hp, hv, hf,
    hne, hr]

/-- Witness for C4: every precise-path call succeeds on the sample
target; no fallback scan of `/data/movies/Inception` appears. -/
theorem C4_witness :
    (sampleTarget true "" okApi).scanResult "/data/movies/Inception" = none ∧
    ApiCall.scanCall "/data/movies/Inception" ∉
      (sampleTarget true "" okApi).scanCalls "/data/movies/Inception" :=
  ⟨(C4_precise_success_no_fullscan (sampleTarget true "" okApi)
      "/data/movies/Inception" ⟨"Movies", "/data/movies"⟩ "view1" "42"
      (by decide) rfl rfl rfl (by decide) rfl).1,
   (C4_precise_success_no_fullscan (sampleTarget true "" okApi)
      "/data/movies/Inception" ⟨"Movies", "/data/movies"⟩ "view1" "42"
      (by decide) rfl rfl rfl (by decide) rfl).2 "/data/movies/Inception"⟩

/-- C5: with precise refresh enabled, if the view lookup succeeds and
the item lookup succeeds but returns an identifier that trims to the
empty string, `Scan` falls back to the whole-library scan and never
calls `RefreshItem` with that identifier. -/
theorem C5_empty_item_falls_back (t : target) (f : String)
    (lib : library) (viewID itemID : String)
    (hlib : t.getScanLibrary (t.rewrite f) = some lib)
    (hp : t.cfg.PreciseRefresh = true)
    (hv : t.api.GetViewID t.cfg.UserID (effectiveLibraryName t.cfg lib) =
      .ok viewID)
    (hf : t.api.FindItemIDByPath t.cfg.UserID viewID (t.rewrite f) =
      .ok itemID)
    (he : trimSpace itemID = "") :
    ApiCall.scanCall (t.rewrite f) ∈ t.scanCalls f ∧
    ApiCall.refreshItem itemID ∉ t.scanCalls f := by
  simp [target.scanCalls, target.Scan, hlib, hp, hv, hf, he,
    fullScanFrom_calls]

/-- Witness for C5: the item lookup returns the whitespace identifier
`"  "`; the fallback scan runs and no `RefreshItem` is issued. -/
theorem C5_witness :
    ApiCall.scanCall "/data/movies/Inception" ∈
      (sampleTarget true "" emptyItemApi).scanCalls "/data/movies/Inception" ∧
    ApiCall.refreshItem "  " ∉
      (sampleTarget true "" emptyItemApi).scanCalls "/data/movies/Inception" :=
  C5_empty_item_falls_back (sampleTarget true "" emptyItemApi)
    "/data/movies/Inception" ⟨"Movies", "/data/movies"⟩ "view1" "  "
    (by decide) rfl rfl rfl (by decide)

/-- C6: with precise refresh enabled, when the precise path reaches
`RefreshItem` and that call fails, `Scan` still issues the fallback
`api.Scan` exactly once (the trace is the three precise calls followed
by one `scanCall`), and the returned error, if any, is exactly
`api.Scan`'s error — never the earlier `RefreshItem` failure. -/
theorem C6_refresh_failure_still_scans (t : target) (f : String)
    (lib : library) (viewID itemID rerr : String)
    (hlib : t.getScanLibrary (t.rewrite f) = some lib)
    (hp : t.cfg.PreciseRefresh = true)
    (hv : t.api.GetViewID t.cfg.UserID (effectiveLibraryName t.cfg lib) =
      .ok viewID)
    (hf : t.api.FindItemIDByPath t.cfg.UserID viewID (t.rewrite f) =
      .ok itemID)
    (hne : ¬ trimSpace itemID = "")
    (hr : t.api.RefreshItem itemID = .error rerr) :
    t.scanCalls f =
      [ApiCall.getViewID t.cfg.UserID (effectiveLibraryName t.cfg lib),
       ApiCall.findItemIDByPath t.cfg.UserID viewID (t.rewrite f),
       ApiCall.refreshItem itemID,
       ApiCall.scanCall (t.rewrite f)] ∧
    ∀ e, t.scanResult f = some e ↔ t.api.Scan (t.rewrite f) = .error e := by
  constructor
  · simp [target.scanCalls, target.Scan, hlib, hp, hv, hf, hne, hr,
      fullScanFrom_calls]
  · intro e
    simp [target.scanResult, target.Scan, hlib, hp, hv, hf, hne, hr,
      fullScanFrom_result]

/-- Witness for C6: `RefreshItem` fails with `"boom"` while the fallback
scan succeeds; the full four-call trace appears and no error (in
particular not `"boom"`) is returned. -/
theorem C6_witness :
    (sampleTarget true "" refreshFailApi).scanCalls "/data/movies/Inception" =
      [ApiCall.getViewID "user" "Movies",
       ApiCall.findItemIDByPath "user" "view1" "/data/movies/Inception",
       ApiCall.refreshItem "42",
       ApiCall.scanCall "/data/movies/Inception"] ∧
    ((sampleTarget true "" refreshFailApi).scanResult
        "/data/movies/Inception" = some "boom" ↔
      (sampleTarget true "" refreshFailApi).api.Scan
        "/data/movies/Inception" = .error "boom") :=
  ⟨(C6_refresh_failure_still_scans (sampleTarget true "" refreshFailApi)
      "/data/movies/Inception" ⟨"Movies", "/data/movies"⟩ "view1" "42" "boom"
      (by decide) rfl rfl rfl (by decide) rfl).1,
   (C6_refresh_failure_still_scans (sampleTarget true "" refreshFailApi)
      "/data/movies/Inception" ⟨"Movies", "/data/movies"⟩ "view1" "42" "boom"
      (by decide) rfl rfl rfl (by decide) rfl).2 "boom"⟩

/-- C1: `Scan` returns an error if and only if the fallback
whole-library `api.Scan` on the rewritten path was executed and failed,
and the error returned is exactly that call's error; no other step
(resolution miss, view lookup, item lookup, item refresh) ever surfaces
an error out of `Scan`. -/
theorem C1_error_iff_fullscan_fails (t : target) (f : String) (e : String) :
    t.scanResult f = some e ↔
      ApiCall.scanCall (t.rewrite f) ∈ t.scanCalls f ∧
        t.api.Scan (t.rewrite f) = .error e := by
  simp only [target.scanResult, target.scanCalls, target.Scan]
  repeat' split
  all_goals simp [fullScanFrom_result, fullScanFrom_calls]

/-- C9: `Scan` leaves the adapter instance unchanged — configuration,
cached library snapshot, rewriter and API handle are identical after the
call — and never reissues `api.Libraries()`: every resolution uses the
snapshot captured at construction. -/
theorem C9_state_unchanged_no_reacquisition (t : target) (f : String) :
    (t.Scan f).1 = t ∧ ApiCall.librariesCall ∉ (t.Scan f).2.2 := by
  simp only [target.Scan]
  repeat' split
  all_goals simp [fullScanFrom_fst, fullScanFrom_calls]

/-- C8 counterexample: with the configured library override `" "`
(non-empty but whitespace), precise refresh enabled and the path
resolving to the `Movies` library, `GetViewID` is called with the
resolved library's name `"Movies"`, not with the non-empty override —
refuting the claim that the override is used whenever it is non-empty. -/
theorem C8_counterexample :
    (sampleTarget true " " okApi).cfg.Library ≠ "" ∧
    (sampleTarget true " " okApi).cfg.PreciseRefresh = true ∧
    (sampleTarget true " " okApi).getScanLibrary "/data/movies/x" =
      some ⟨"Movies", "/data/movies"⟩ ∧
    ApiCall.getViewID "user" " " ∉
      (sampleTarget true " " okApi).scanCalls "/data/movies/x" ∧
    ApiCall.getViewID "user" "Movies" ∈
      (sampleTarget true " " okApi).scanCalls "/data/movies/x" := by
  decide

/-- C8 (amended): with precise refresh enabled, the first remote call of
`Scan` is `GetViewID` with the remote user and the effective library
name: the configured override whenever it is non-empty **after trimming
whitespace**, otherwise the resolved library's name. -/
theorem C8_amended_effective_library_name (t : target) (f : String)
    (lib : library)
    (hlib : t.getScanLibrary (t.rewrite f) = some lib)
    (hp : t.cfg.PreciseRefresh = true) :
    (t.scanCalls f).head? =
      some (ApiCall.getViewID t.cfg.UserID
        (if trimSpace t.cfg.Library = "" then lib.Name
         else t.cfg.Library)) := by
  simp only [target.scanCalls, target.Scan, effectiveLibraryName, hlib, hp]
  repeat' split
  all_goals simp_all [fullScanFrom_calls]

/-- Witness for the amended C8: the whitespace override `" "` trims to
empty, so the resolved name `"Movies"` is queried. -/
theorem C8_amended_witness :
    ((sampleTarget true " " okApi).scanCalls "/data/movies/x").head? =
      some (ApiCall.getViewID "user"
        (if trimSpace " " = "" then "Movies" else " ")) :=
  C8_amended_effective_library_name (sampleTarget true " " okApi)
    "/data/movies/x" ⟨"Movies", "/data/movies"⟩ (by decide) rfl

/-- C10: resolution matches on raw string prefix with no path-component
boundary check: root `/data/tv` is a raw prefix of `/data/tvshows/x`
(the match does not continue with a separator, as `/data/tv/` is not a
prefix), yet the resolver returns the `TV` library instead of the
`NoMatchingLibrary` failure. -/
theorem C10_raw_prefix_no_boundary_check :
    hasPrefix "/data/tvshows/x" "/data/tv" = true ∧
    hasPrefix "/data/tvshows/x" ("/data/tv" ++ "/") = false ∧
    getScanLibraryList [⟨"TV", "/data/tv"⟩] "/data/tvshows/x" =
      some ⟨"TV", "/data/tv"⟩ := by
  decide

end Jellyfin
